import Mathlib

/-!
Shallow embedding of the X-EISD core (THGLab/X-EISDv2): the per-modality
scoring kernels of `src/xeisd/components/scorers.py`, the modality-name
constants of `src/xeisd/components/__init__.py`, and the scoring /
exchange-optimization engine `XEISD` of `src/xeisd/components/optimizer.py`.

Modelling conventions:
* numpy float arithmetic is embedded as exact real arithmetic (`ℝ`);
  per-channel numpy vectors are functions `ℕ → ℝ` together with the channel
  count `M` carried by the experimental stack, and the back-calculated
  N×M matrix is a function `row : ℕ → ℕ → ℝ` (conformer, channel);
* log-likelihood values live in `EReal`, so the `-np.inf` sentinel that
  `normal_loglike` writes for non-positive sigma is `⊥`, and `np.nansum`
  over channels is an `EReal` list sum (no NaN arises in the embedding);
* the `np.random` draws consumed by `calc_scores` and `optimize` are oracle
  inputs (an explicit drawn subset, and an explicit list of exchange
  proposals); the rejection-sampling `while` loop of `optimize` is modelled
  by the side conditions it guarantees on each accepted draw;
* Python's `indices=None` dispatch is an `Option (List ℕ)` argument, and the
  `assert final_size < self.pool_size` guard is an `Except` error.
-/

namespace Xeisd

/-! Modality-name constants from `components/__init__.py`. -/

def saxs_name : String := "saxs"

def cs_name : String := "cs"

def fret_name : String := "fret"

def jc_name : String := "jc"

def noe_name : String := "noe"

def pre_name : String := "pre"

def rdc_name : String := "rdc"

def rh_name : String := "rh"

def eisd_modules : List String :=
  [saxs_name, cs_name, fret_name, jc_name, noe_name, pre_name, rdc_name, rh_name]

noncomputable section

open Classical

/-! Vector helpers: numpy reductions over the channels `0 .. M-1` and over an
explicit list of conformer indices. -/

/-- Mean of the rows selected by `idxs` at channel `j`:
`np.mean(data.values[indices, :], axis=0)`. -/
def subsetMean (row : ℕ → ℕ → ℝ) (idxs : List ℕ) (j : ℕ) : ℝ :=
  ((idxs.map fun i => row i j).sum) / (idxs.length : ℝ)

/-- Sum of a per-channel real vector over the `M` channels. -/
def channelSum (M : ℕ) (f : ℕ → ℝ) : ℝ :=
  ((List.range M).map f).sum

/-- Mean of a per-channel real vector over the `M` channels (`np.nanmean`;
the embedding carries no NaN). -/
def channelMean (M : ℕ) (f : ℕ → ℝ) : ℝ :=
  channelSum M f / (M : ℝ)

/-- Sum of a per-channel extended-real vector over the `M` channels
(`np.nansum` of the per-channel log-likelihoods). -/
def esum (M : ℕ) (f : ℕ → EReal) : EReal :=
  ((List.range M).map f).sum

/-- The maximum entry of the first `M` channels (`np.max`); `M ≥ 1` in use. -/
def npMax (M : ℕ) (f : ℕ → ℝ) : ℝ :=
  ((List.range M).map f).foldr max (f 0)

/-- The minimum entry of the first `M` channels (`np.min`); `M ≥ 1` in use. -/
def npMin (M : ℕ) (f : ℕ → ℝ) : ℝ :=
  ((List.range M).map f).foldr min (f 0)

/-! The shared scoring helpers of `scorers.py`. -/

/-- The `calc_opt_params` helper (scorers.py lines 29-35): per-channel optimal
nuisance parameters, with the all-zeros fallback when any experimental sigma
is exactly zero (`np.any(exp_sig == 0)` over the `M` channels). -/
def calc_opt_params (M : ℕ) (beta exp' exp_sig sig : ℕ → ℝ) : ℕ → ℝ :=
  if ∃ j < M, exp_sig j = 0 then fun _ => 0
  else fun j =>
    ((sig j ^ 2 / exp_sig j ^ 2) * (exp' j - beta j)) / (1 + sig j ^ 2 / exp_sig j ^ 2)

/-- The `eps=1e-10` default of `normal_loglike`. -/
def nl_eps : ℝ := 1 / 10 ^ 10

/-- The `min_val=1e-300` default of `normal_loglike`. -/
def nl_min_val : ℝ := 1 / 10 ^ 300

/-- The Gaussian density computed inside `normal_loglike` before the
`np.maximum(·, min_val)` floor: `pre_exp * np.exp(exp_val)` with
`exp_val = -gamma (x-mu)² / (2 (sig²+eps))` and
`pre_exp = 1 / sqrt(2 π (sig²+eps))`. -/
def nl_density (x mu sig gamma : ℝ) : ℝ :=
  (1 / Real.sqrt (2 * Real.pi * (sig ^ 2 + nl_eps))) *
    Real.exp (-gamma * (x - mu) ^ 2 / (2 * (sig ^ 2 + nl_eps)))

/-- One channel of the vectorized branch of `normal_loglike` (scorers.py
lines 57-75): start from `-inf`, and where `sig > 0` floor the density at
`min_val` and take its logarithm. -/
def normal_loglike (x mu sig gamma : ℝ) : EReal :=
  if 0 < sig then ((Real.log (max (nl_density x mu sig gamma) nl_min_val) : ℝ) : EReal)
  else (⊥ : EReal)

/-- The per-channel X-EISD score `calc_score` (scorers.py lines 78-85):
`f = f_q + f_err` (the unused `f_comps` diagnostic pair is not carried). -/
def calc_score (beta exp' exp_sig sig opt_params : ℕ → ℝ) (gamma : ℝ) : ℕ → EReal :=
  fun j =>
    normal_loglike (opt_params j) 0 (sig j) gamma +
      normal_loglike (exp' j - opt_params j - beta j) 0 (exp_sig j) gamma

/-- The `calc_gamma` Shannon channel-count correction (scorers.py lines 88-94). -/
def calc_gamma (len_saxs num_res : ℕ) (qmax qmin : ℝ) : ℝ :=
  ((num_res : ℝ) * (qmax - qmin) / Real.pi) / (len_saxs : ℝ)

/-! The 3×3 linear solve of the J-coupling kernel.  `np.linalg.solve(a, b)`
is embedded by Cramer's rule, which agrees with it exactly whenever the
matrix is invertible (the only case in which numpy does not raise). -/

/-- Determinant of a 3×3 matrix given as a function. -/
def det3 (a : Fin 3 → Fin 3 → ℝ) : ℝ :=
  a 0 0 * (a 1 1 * a 2 2 - a 1 2 * a 2 1) -
    a 0 1 * (a 1 0 * a 2 2 - a 1 2 * a 2 0) +
    a 0 2 * (a 1 0 * a 2 1 - a 1 1 * a 2 0)

/-- Cramer solve of `a · x = b` for a 3×3 system. -/
def solve3 (a : Fin 3 → Fin 3 → ℝ) (b : Fin 3 → ℝ) : Fin 3 → ℝ :=
  fun i => det3 (fun r c => if c = i then b r else a r c) / det3 a

/-- One channel of `vect_calc_opt_params_jc` (scorers.py lines 97-126): the
optimal `(A, B, C)` Karplus parameters solved from the 3×3 system built from
the two feature moments, the priors and the experimental sigma. -/
def vect_calc_opt_params_jc (alpha1 alpha2 exp_j exp_sig : ℝ)
    (mus sigs : Fin 3 → ℝ) : Fin 3 → ℝ :=
  let a : Fin 3 → Fin 3 → ℝ := fun r c =>
    if r = 0 ∧ c = 0 then 1 / sigs 0 ^ 2 + (alpha2 / exp_sig) ^ 2
    else if r = 1 ∧ c = 1 then 1 / sigs 1 ^ 2 + (alpha1 / exp_sig) ^ 2
    else if r = 2 ∧ c = 2 then 1 / sigs 2 ^ 2 + 1 / exp_sig ^ 2
    else if (r = 0 ∧ c = 1) ∨ (r = 1 ∧ c = 0) then alpha1 * alpha2 / exp_sig ^ 2
    else if (r = 0 ∧ c = 2) ∨ (r = 2 ∧ c = 0) then alpha2 / exp_sig ^ 2
    else alpha1 / exp_sig ^ 2
  let b : Fin 3 → ℝ := fun r =>
    if r = 0 then mus 0 / sigs 0 ^ 2 + exp_j * alpha2 / exp_sig ^ 2
    else if r = 1 then mus 1 / sigs 1 ^ 2 + exp_j * alpha1 / exp_sig ^ 2
    else mus 2 / sigs 2 ^ 2 + exp_j / exp_sig ^ 2
  solve3 a b

/-- One channel of `vect_calc_score_jc` (scorers.py lines 129-157): three
prior Gaussian terms plus the residual term, at the default `gamma = 1`. -/
def vect_calc_score_jc (alpha1 alpha2 exp_j exp_sig : ℝ)
    (opt_params : Fin 3 → ℝ) (mus sigs : Fin 3 → ℝ) : EReal :=
  normal_loglike (opt_params 0) (mus 0) (sigs 0) 1 +
    normal_loglike (opt_params 1) (mus 1) (sigs 1) 1 +
    normal_loglike (opt_params 2) (mus 2) (sigs 2) 1 +
    normal_loglike (exp_j - opt_params 0 * alpha2 - opt_params 1 * alpha1 - opt_params 2)
      0 exp_sig 1

/-! Observable Stacks (§3 of the spec; the parser collaborators that build
them are out of the modelled core).  Each experimental stack carries its
channel count `M` and the data columns the kernels read; each back-calculated
stack carries the N×M value matrix and its forward-model noise parameter. -/

/-- Experimental SAXS stack: `value`, `error` and `index` columns. -/
structure SaxsExp where
  M : ℕ
  vals : ℕ → ℝ
  errs : ℕ → ℝ
  idx : ℕ → ℝ

/-- Experimental chemical-shift stack: `value`, `error` and `atomname`. -/
structure CsExp where
  M : ℕ
  vals : ℕ → ℝ
  errs : ℕ → ℝ
  atm : ℕ → String

/-- Experimental stack with plain `value` and `error` columns
(FRET, J-coupling, RDC, Rh). -/
structure ValErrExp where
  M : ℕ
  vals : ℕ → ℝ
  errs : ℕ → ℝ

/-- Experimental distance-restraint stack (NOE, PRE): `dist_value` plus
either `upper`/`lower` bound columns or an `error` column.  `hasBounds`
records whether the `upper`/`lower` lookup of the `try` block succeeds;
note that the source's `except ValueError` fallback path dereferences the
not-yet-assigned local `exp_sigma` and could not actually run — the
fallback is modelled by its evident intent, the `error` column. -/
structure BoundsExp where
  M : ℕ
  dist : ℕ → ℝ
  upper : ℕ → ℝ
  lower : ℕ → ℝ
  errs : ℕ → ℝ
  hasBounds : Bool

/-- Back-calculated stack with a scalar forward-model sigma. -/
structure BcScalar where
  row : ℕ → ℕ → ℝ
  sigma : ℝ

/-- Back-calculated chemical-shift stack: per-atom-type sigma map. -/
structure BcCs where
  row : ℕ → ℕ → ℝ
  sigmaOf : String → ℝ

/-- Back-calculated J-coupling stack: named `A`,`B`,`C` prior means and
sigmas. -/
structure BcJc where
  row : ℕ → ℕ → ℝ
  mus : Fin 3 → ℝ
  sigs : Fin 3 → ℝ

/-- Output record of the generic kernels: `(rmse, total_score, mean
observable vector, per-channel squared error)`. -/
structure KernelOut where
  rmse : ℝ
  score : EReal
  mean : ℕ → ℝ
  error : ℕ → ℝ

/-- Output record of the Rh kernel, whose third return is the single scalar
`bc[0]` (channel 0 of the mean vector), not the vector. -/
structure RhOut where
  rmse : ℝ
  score : EReal
  mean0 : ℝ
  error : ℕ → ℝ

/-- Output record of the J-coupling kernel: `(rmse, score, predicted
couplings, [alpha1 mean, alpha2 mean])`. -/
structure JcOut where
  rmse : ℝ
  score : EReal
  jcoup_vals : ℕ → ℝ
  alpha1 : ℕ → ℝ
  alpha2 : ℕ → ℝ

/-! The eight per-modality kernels (scorers.py lines 166-528).  Python's
optional `old_vals`, `popped_structure`, `new_index` arguments (used only by
the `indices is None` branch) are plain arguments here. -/

/-- `saxs_optimization_ensemble` (scorers.py lines 166-204). -/
def saxs_optimization_ensemble (ed : SaxsExp) (bd : BcScalar)
    (indices : Option (List ℕ)) (ens_size : ℕ) (nres : ℕ)
    (old_vals : ℕ → ℝ) (popped_structure new_index : ℕ) : KernelOut :=
  let bc_saxs : ℕ → ℝ :=
    match indices with
    | none => fun j =>
        old_vals j - (bd.row popped_structure j - bd.row new_index j) / (ens_size : ℝ)
    | some l => fun j => subsetMean bd.row l j
  let opt_params := calc_opt_params ed.M bc_saxs ed.vals ed.errs fun _ => bd.sigma
  let g := calc_gamma ed.M nres (npMax ed.M ed.idx) (npMin ed.M ed.idx)
  let f := calc_score bc_saxs ed.vals ed.errs (fun _ => bd.sigma) opt_params g
  let error : ℕ → ℝ := fun j => (ed.vals j - bc_saxs j) ^ 2
  { rmse := Real.sqrt (channelMean ed.M error)
    score := esum ed.M f
    mean := bc_saxs
    error := error }

/-- `cs_optimization_ensemble` (scorers.py lines 207-258). -/
def cs_optimization_ensemble (ed : CsExp) (bd : BcCs) (ens_size : ℕ)
    (indices : Option (List ℕ))
    (old_vals : ℕ → ℝ) (popped_structure new_index : ℕ) : KernelOut :=
  let bc_cs : ℕ → ℝ :=
    match indices with
    | none => fun j =>
        old_vals j - (bd.row popped_structure j - bd.row new_index j) / (ens_size : ℝ)
    | some l => fun j => subsetMean bd.row l j
  let bc_sigma : ℕ → ℝ := fun j => bd.sigmaOf (ed.atm j)
  let opt_params := calc_opt_params ed.M bc_cs ed.vals ed.errs bc_sigma
  let f := calc_score bc_cs ed.vals ed.errs bc_sigma opt_params 1
  let error : ℕ → ℝ := fun j => (ed.vals j - bc_cs j) ^ 2
  { rmse := Real.sqrt (channelMean ed.M error)
    score := esum ed.M f
    mean := bc_cs
    error := error }

/-- `fret_optimization_ensemble` (scorers.py lines 261-292). -/
def fret_optimization_ensemble (ed : ValErrExp) (bd : BcScalar) (ens_size : ℕ)
    (indices : Option (List ℕ))
    (old_vals : ℕ → ℝ) (popped_structure new_index : ℕ) : KernelOut :=
  let bc : ℕ → ℝ :=
    match indices with
    | none => fun j =>
        old_vals j - (bd.row popped_structure j - bd.row new_index j) / (ens_size : ℝ)
    | some l => fun j => subsetMean bd.row l j
  let opt_params := calc_opt_params ed.M bc ed.vals ed.errs fun _ => bd.sigma
  let f := calc_score bc ed.vals ed.errs (fun _ => bd.sigma) opt_params 1
  let error : ℕ → ℝ := fun j => (ed.vals j - bc j) ^ 2
  { rmse := Real.sqrt (channelMean ed.M error)
    score := esum ed.M f
    mean := bc
    error := error }

/-- `jc_optimization_ensemble` (scorers.py lines 295-350).  The incremental
branch updates both feature means: the first moment from the raw rows and
the second moment from the squared rows. -/
def jc_optimization_ensemble (ed : ValErrExp) (bd : BcJc) (ens_size : ℕ)
    (indices : Option (List ℕ))
    (old_vals : (ℕ → ℝ) × (ℕ → ℝ)) (popped_structure new_index : ℕ) : JcOut :=
  let bc_alpha1 : ℕ → ℝ :=
    match indices with
    | none => fun j =>
        old_vals.1 j - (bd.row popped_structure j - bd.row new_index j) / (ens_size : ℝ)
    | some l => fun j => subsetMean bd.row l j
  let bc_alpha2 : ℕ → ℝ :=
    match indices with
    | none => fun j =>
        old_vals.2 j -
          (bd.row popped_structure j ^ 2 - bd.row new_index j ^ 2) / (ens_size : ℝ)
    | some l => fun j => subsetMean (fun i j' => bd.row i j' ^ 2) l j
  let opt_params : ℕ → Fin 3 → ℝ := fun j =>
    vect_calc_opt_params_jc (bc_alpha1 j) (bc_alpha2 j) (ed.vals j) (ed.errs j) bd.mus bd.sigs
  let f : ℕ → EReal := fun j =>
    vect_calc_score_jc (bc_alpha1 j) (bc_alpha2 j) (ed.vals j) (ed.errs j)
      (opt_params j) bd.mus bd.sigs
  let jcoup : ℕ → ℝ := fun j =>
    opt_params j 0 * bc_alpha2 j + opt_params j 1 * bc_alpha1 j + opt_params j 2
  let error : ℕ → ℝ := fun j => (jcoup j - ed.vals j) ^ 2
  { rmse := Real.sqrt (channelMean ed.M error)
    score := esum ed.M f
    jcoup_vals := jcoup
    alpha1 := bc_alpha1
    alpha2 := bc_alpha2 }

/-- The `exp_sigma` preparation shared by the NOE and PRE kernels: half the
sum of the bound columns when they exist, otherwise the `error` column. -/
def boundsSigma (ed : BoundsExp) : ℕ → ℝ :=
  if ed.hasBounds then fun j => (ed.upper j + ed.lower j) / 2 else ed.errs

/-- `noe_optimization_ensemble` (scorers.py lines 353-397): the ensemble
mean is taken in inverse-sixth-power space, and the incremental branch
updates the transformed mean recovered from `old_vals ** -6`. -/
def noe_optimization_ensemble (ed : BoundsExp) (bd : BcScalar) (ens_size : ℕ)
    (indices : Option (List ℕ))
    (old_vals : ℕ → ℝ) (popped_structure new_index : ℕ) : KernelOut :=
  let exp_sigma := boundsSigma ed
  let avg_distance : ℕ → ℝ :=
    match indices with
    | none => fun j =>
        ((old_vals j ^ (-6 : ℝ) * (ens_size : ℝ) -
            (bd.row popped_structure j ^ (-6 : ℝ) - bd.row new_index j ^ (-6 : ℝ))) /
          (ens_size : ℝ)) ^ (-(1 : ℝ) / 6)
    | some l => fun j =>
        (subsetMean (fun i j' => bd.row i j' ^ (-6 : ℝ)) l j) ^ (-(1 : ℝ) / 6)
  let opt_params := calc_opt_params ed.M avg_distance ed.dist exp_sigma fun _ => bd.sigma
  let f := calc_score avg_distance ed.dist exp_sigma (fun _ => bd.sigma) opt_params 1
  let error : ℕ → ℝ := fun j => (ed.dist j - avg_distance j) ^ 2
  { rmse := Real.sqrt (channelMean ed.M error)
    score := esum ed.M f
    mean := avg_distance
    error := error }

/-- `pre_optimization_ensemble` (scorers.py lines 400-462): ratio mode
scores the raw rows with the arithmetic mean; distance mode uses the
inverse-sixth-power mean exactly like the NOE kernel. -/
def pre_optimization_ensemble (ed : BoundsExp) (bd : BcScalar) (ens_size : ℕ)
    (indices : Option (List ℕ)) (pre_ratios : Bool)
    (old_vals : ℕ → ℝ) (popped_structure new_index : ℕ) : KernelOut :=
  let exp_sigma := boundsSigma ed
  if pre_ratios then
    let bc : ℕ → ℝ :=
      match indices with
      | none => fun j =>
          old_vals j - (bd.row popped_structure j - bd.row new_index j) / (ens_size : ℝ)
      | some l => fun j => subsetMean bd.row l j
    let opt_params := calc_opt_params ed.M bc ed.dist exp_sigma fun _ => bd.sigma
    let f := calc_score bc ed.dist exp_sigma (fun _ => bd.sigma) opt_params 1
    let error : ℕ → ℝ := fun j => (ed.dist j - bc j) ^ 2
    { rmse := Real.sqrt (channelMean ed.M error)
      score := esum ed.M f
      mean := bc
      error := error }
  else
    let avg_distance : ℕ → ℝ :=
      match indices with
      | none => fun j =>
          ((old_vals j ^ (-6 : ℝ) * (ens_size : ℝ) -
              (bd.row popped_structure j ^ (-6 : ℝ) - bd.row new_index j ^ (-6 : ℝ))) /
            (ens_size : ℝ)) ^ (-(1 : ℝ) / 6)
      | some l => fun j =>
          (subsetMean (fun i j' => bd.row i j' ^ (-6 : ℝ)) l j) ^ (-(1 : ℝ) / 6)
    let opt_params := calc_opt_params ed.M avg_distance ed.dist exp_sigma fun _ => bd.sigma
    let f := calc_score avg_distance ed.dist exp_sigma (fun _ => bd.sigma) opt_params 1
    let error : ℕ → ℝ := fun j => (ed.dist j - avg_distance j) ^ 2
    { rmse := Real.sqrt (channelMean ed.M error)
      score := esum ed.M f
      mean := avg_distance
      error := error }

/-- `rdc_optimization_ensemble` (scorers.py lines 465-495). -/
def rdc_optimization_ensemble (ed : ValErrExp) (bd : BcScalar) (ens_size : ℕ)
    (indices : Option (List ℕ))
    (old_vals : ℕ → ℝ) (popped_structure new_index : ℕ) : KernelOut :=
  let bc : ℕ → ℝ :=
    match indices with
    | none => fun j =>
        old_vals j - (bd.row popped_structure j - bd.row new_index j) / (ens_size : ℝ)
    | some l => fun j => subsetMean bd.row l j
  let opt_params := calc_opt_params ed.M bc ed.vals ed.errs fun _ => bd.sigma
  let f := calc_score bc ed.vals ed.errs (fun _ => bd.sigma) opt_params 1
  let error : ℕ → ℝ := fun j => (ed.vals j - bc j) ^ 2
  { rmse := Real.sqrt (channelMean ed.M error)
    score := esum ed.M f
    mean := bc
    error := error }

/-- `rh_optimization_ensemble` (scorers.py lines 498-528): identical generic
pipeline but its third return value is `bc[0]`, the channel-0 scalar. -/
def rh_optimization_ensemble (ed : ValErrExp) (bd : BcScalar) (ens_size : ℕ)
    (indices : Option (List ℕ))
    (old_vals : ℕ → ℝ) (popped_structure new_index : ℕ) : RhOut :=
  let bc : ℕ → ℝ :=
    match indices with
    | none => fun j =>
        old_vals j - (bd.row popped_structure j - bd.row new_index j) / (ens_size : ℝ)
    | some l => fun j => subsetMean bd.row l j
  let opt_params := calc_opt_params ed.M bc ed.vals ed.errs fun _ => bd.sigma
  let f := calc_score bc ed.vals ed.errs (fun _ => bd.sigma) opt_params 1
  let error : ℕ → ℝ := fun j => (ed.vals j - bc j) ^ 2
  { rmse := Real.sqrt (channelMean ed.M error)
    score := esum ed.M f
    mean0 := bc 0
    error := error }

/-! The Engine (`optimizer.py`): the `XEISD` object's read-only state, the
`calc_scores` dispatch and the `optimize` exchange loop. -/

/-- The `XEISD` object: experimental and back-calculated stacks for every
modality, the residue count and the pool size. -/
structure XEISDModel where
  saxsE : SaxsExp
  csE : CsExp
  fretE : ValErrExp
  jcE : ValErrExp
  noeE : BoundsExp
  preE : BoundsExp
  rdcE : ValErrExp
  rhE : ValErrExp
  saxsB : BcScalar
  csB : BcCs
  fretB : BcScalar
  jcB : BcJc
  noeB : BcScalar
  preB : BcScalar
  rdcB : BcScalar
  rhB : BcScalar
  resnum : ℕ
  pool_size : ℕ

/-- One entry of the heterogeneous Python list returned by `calc_scores`:
a scalar, a log-likelihood score, an observable vector, or the J-coupling
pair of feature-mean vectors. -/
inductive Entry where
  | num : ℝ → Entry
  | escore : EReal → Entry
  | vec : (ℕ → ℝ) → Entry
  | vecPair : (ℕ → ℝ) → (ℕ → ℝ) → Entry

/-- Result of `XEISD.calc_scores`: either the `(name, list)` tuple, or the
bare `False` the source returns when no modality name matches
(optimizer.py line 113, after the comment `code should not go here`). -/
inductive CalcScoresResult where
  | pair : String → List Entry → CalcScoresResult
  | boolFalse : CalcScoresResult

/-- Payload length of a `calc_scores` result (`len` of the returned list). -/
def payloadLength : CalcScoresResult → ℕ
  | .pair _ l => l.length
  | .boolFalse => 0

/-- Zero vector used where the Python kernels receive their default
`old_vals=None` (never read by the full-evaluation branch). -/
def zv : ℕ → ℝ := fun _ => 0

/-- `XEISD.calc_scores` (optimizer.py lines 50-113).  The uniform random
subset drawn when `indices is None` is the oracle input `rand`; the
dispatch order and the `[:3]` truncations follow the source: every kernel
result is truncated to three entries except J-coupling, which is returned
whole (four entries). -/
def calc_scores (m : XEISDModel) (dtypes : String) (ens_size : ℕ)
    (indices : Option (List ℕ)) (rand : List ℕ) : CalcScoresResult :=
  let idxs := indices.getD rand
  if jc_name = dtypes then
    let r := jc_optimization_ensemble m.jcE m.jcB ens_size (some idxs) ⟨zv, zv⟩ 0 0
    .pair jc_name [.num r.rmse, .escore r.score, .vec r.jcoup_vals, .vecPair r.alpha1 r.alpha2]
  else if saxs_name = dtypes then
    let r := saxs_optimization_ensemble m.saxsE m.saxsB (some idxs) ens_size m.resnum zv 0 0
    .pair saxs_name [.num r.rmse, .escore r.score, .vec r.mean]
  else if cs_name = dtypes then
    let r := cs_optimization_ensemble m.csE m.csB ens_size (some idxs) zv 0 0
    .pair cs_name [.num r.rmse, .escore r.score, .vec r.mean]
  else if fret_name = dtypes then
    let r := fret_optimization_ensemble m.fretE m.fretB ens_size (some idxs) zv 0 0
    .pair fret_name [.num r.rmse, .escore r.score, .vec r.mean]
  else if noe_name = dtypes then
    let r := noe_optimization_ensemble m.noeE m.noeB ens_size (some idxs) zv 0 0
    .pair noe_name [.num r.rmse, .escore r.score, .vec r.mean]
  else if pre_name = dtypes then
    let r := pre_optimization_ensemble m.preE m.preB ens_size (some idxs) false zv 0 0
    .pair pre_name [.num r.rmse, .escore r.score, .vec r.mean]
  else if rdc_name = dtypes then
    let r := rdc_optimization_ensemble m.rdcE m.rdcB ens_size (some idxs) zv 0 0
    .pair rdc_name [.num r.rmse, .escore r.score, .vec r.mean]
  else if rh_name = dtypes then
    let r := rh_optimization_ensemble m.rhE m.rhB ens_size (some idxs) zv 0 0
    .pair rh_name [.num r.rmse, .escore r.score, .num r.mean0]
  else
    .boolFalse

/-! The `optimize` exchange loop. -/

/-- Modality keys, in the fixed stack order of the model (`exp_data.keys()`,
with every modality present). -/
inductive ModKey where
  | saxs | cs | fret | jc | noe | pre | rdc | rh
deriving DecidableEq, BEq

/-- All modality keys: the iteration order of the `flags` dictionary. -/
def ModKey.allKeys : List ModKey :=
  [.saxs, .cs, .fret, .jc, .noe, .pre, .rdc, .rh]

/-- The `mode` argument of `optimize`: `"all"`, one modality name, or an
explicit list (the `modes` helper of `components/__init__.py`). -/
inductive ModeSel where
  | all : ModeSel
  | single : ModKey → ModeSel
  | explicitList : List ModKey → ModeSel

/-- The `modes` helper resolved over typed keys: which modalities are
active. -/
def modes : ModeSel → ModKey → Bool
  | .all => fun _ => true
  | .single k => fun k' => k' == k
  | .explicitList l => fun k' => l.contains k'

/-- The running-score state one modality's `old_scores[key]` /
`new_scores[key]` list holds.  The positional slots of the Python list map
to named fields: `[0] ↦ rmse`, `[1] ↦ score`, `[2] ↦ mean` (`mean0` for Rh,
`jcoup_vals` stored in `mean` for J-coupling), `[3] ↦ (alpha1, alpha2)` for
J-coupling. -/
structure RunScore where
  rmse : ℝ
  score : EReal
  mean : ℕ → ℝ
  mean0 : ℝ
  alpha1 : ℕ → ℝ
  alpha2 : ℕ → ℝ

/-- The `[0, 0, 0]` (and `[0, 0, 0, [0]]` for J-coupling) lists that
initialize `new_scores` for every modality (optimizer.py lines 175-179):
every slot zero. -/
def zeroScores : RunScore :=
  { rmse := 0, score := 0, mean := fun _ => 0, mean0 := 0
    alpha1 := fun _ => 0, alpha2 := fun _ => 0 }

/-- The initial `old_scores` (optimizer.py lines 172-174): a full
(non-incremental) evaluation of every modality in `flags` on the sampled
subset, via `calc_scores`. -/
def fullRun (m : XEISDModel) (final_size : ℕ) (idxs : List ℕ) : ModKey → RunScore
  | .saxs =>
      let r := saxs_optimization_ensemble m.saxsE m.saxsB (some idxs) final_size m.resnum zv 0 0
      { zeroScores with rmse := r.rmse, score := r.score, mean := r.mean }
  | .cs =>
      let r := cs_optimization_ensemble m.csE m.csB final_size (some idxs) zv 0 0
      { zeroScores with rmse := r.rmse, score := r.score, mean := r.mean }
  | .fret =>
      let r := fret_optimization_ensemble m.fretE m.fretB final_size (some idxs) zv 0 0
      { zeroScores with rmse := r.rmse, score := r.score, mean := r.mean }
  | .jc =>
      let r := jc_optimization_ensemble m.jcE m.jcB final_size (some idxs) ⟨zv, zv⟩ 0 0
      { zeroScores with
          rmse := r.rmse
          score := r.score
          mean := r.jcoup_vals
          alpha1 := r.alpha1
          alpha2 := r.alpha2 }
  | .noe =>
      let r := noe_optimization_ensemble m.noeE m.noeB final_size (some idxs) zv 0 0
      { zeroScores with rmse := r.rmse, score := r.score, mean := r.mean }
  | .pre =>
      let r := pre_optimization_ensemble m.preE m.preB final_size (some idxs) false zv 0 0
      { zeroScores with rmse := r.rmse, score := r.score, mean := r.mean }
  | .rdc =>
      let r := rdc_optimization_ensemble m.rdcE m.rdcB final_size (some idxs) zv 0 0
      { zeroScores with rmse := r.rmse, score := r.score, mean := r.mean }
  | .rh =>
      let r := rh_optimization_ensemble m.rhE m.rhB final_size (some idxs) zv 0 0
      { zeroScores with rmse := r.rmse, score := r.score, mean0 := r.mean0 }

/-- One modality's incremental re-evaluation inside the exchange loop
(optimizer.py lines 192-235), from the retained state's stored mean.  Rh
passes its stored scalar `[2]` back as `old_vals`, which numpy broadcasts
over the channels.  Note: the source's `pre` call site is positionally
misaligned (its prior mean lands in the `pre_ratios` parameter, the popped
index in `old_vals`, and `new_index` defaults to `None`), which is a
dynamically-typed accident no claim depends on; the call is modelled as the
aligned distance-mode incremental update the surrounding code intends. -/
def incRun (m : XEISDModel) (final_size : ℕ) (old : ModKey → RunScore)
    (popped_structure new_index : ℕ) : ModKey → RunScore
  | .saxs =>
      let r := saxs_optimization_ensemble m.saxsE m.saxsB none final_size m.resnum
        (old .saxs).mean popped_structure new_index
      { zeroScores with rmse := r.rmse, score := r.score, mean := r.mean }
  | .cs =>
      let r := cs_optimization_ensemble m.csE m.csB final_size none
        (old .cs).mean popped_structure new_index
      { zeroScores with rmse := r.rmse, score := r.score, mean := r.mean }
  | .fret =>
      let r := fret_optimization_ensemble m.fretE m.fretB final_size none
        (old .fret).mean popped_structure new_index
      { zeroScores with rmse := r.rmse, score := r.score, mean := r.mean }
  | .jc =>
      let r := jc_optimization_ensemble m.jcE m.jcB final_size none
        ⟨(old .jc).alpha1, (old .jc).alpha2⟩ popped_structure new_index
      { zeroScores with
          rmse := r.rmse
          score := r.score
          mean := r.jcoup_vals
          alpha1 := r.alpha1
          alpha2 := r.alpha2 }
  | .noe =>
      let r := noe_optimization_ensemble m.noeE m.noeB final_size none
        (old .noe).mean popped_structure new_index
      { zeroScores with rmse := r.rmse, score := r.score, mean := r.mean }
  | .pre =>
      let r := pre_optimization_ensemble m.preE m.preB final_size none false
        (old .pre).mean popped_structure new_index
      { zeroScores with rmse := r.rmse, score := r.score, mean := r.mean }
  | .rdc =>
      let r := rdc_optimization_ensemble m.rdcE m.rdcB final_size none
        (old .rdc).mean popped_structure new_index
      { zeroScores with rmse := r.rmse, score := r.score, mean := r.mean }
  | .rh =>
      let r := rh_optimization_ensemble m.rhE m.rhB final_size none
        (fun _ => (old .rh).mean0) popped_structure new_index
      { zeroScores with rmse := r.rmse, score := r.score, mean0 := r.mean0 }

/-- The per-iteration `new_scores` dictionary: incrementally re-evaluated
for active modalities, left at its zero initialization otherwise. -/
def candidateScores (m : XEISDModel) (flags : ModKey → Bool) (final_size : ℕ)
    (old : ModKey → RunScore) (popped_structure new_index : ℕ) : ModKey → RunScore :=
  fun k => if flags k then incRun m final_size old popped_structure new_index k
    else zeroScores

/-- The total score summed over every key of a scores dictionary
(`np.sum([scores[key][1] for key in scores])`). -/
def totalScore (sb : ModKey → RunScore) : EReal :=
  (ModKey.allKeys.map fun k => (sb k).score).sum

/-- The `monte_carlo` acceptance criterion (optimizer.py lines 13-24), with
the uniform draw `u` as an oracle input.  The `np.isinf` overflow rescue is
float-specific and unreachable in exact real arithmetic (`Real.exp` is
finite), so only the acceptance comparison is modelled; `EReal.toReal`
stands for the float score values fed to `np.exp`. -/
def monte_carlo (beta : ℝ) (old_total_score new_total_score : EReal) (u : ℝ) : Prop :=
  u < min 1 (Real.exp (beta * new_total_score.toReal) / Real.exp (beta * old_total_score.toReal))

/-- The `opt_type` argument: `'max'` or `'mc'`. -/
inductive OptType where
  | max : OptType
  | mc : OptType

/-- The mutable state of one `optimize` epoch: the active subset, the
retained `old_scores` dictionary and the accept counter. -/
structure OptState where
  indices : List ℕ
  scores : ModKey → RunScore
  accepted : ℕ

/-- One exchange proposal: the slot drawn by `randint(0, final_size)`, the
replacement index the rejection-sampling `while` loop settles on, and the
uniform draw the Metropolis branch would consume. -/
structure Proposal where
  pop_index : ℕ
  new_index : ℕ
  mc_u : ℝ

/-- One iteration of the exchange loop (optimizer.py lines 182-251): pop
the chosen slot, append the replacement, incrementally re-score the active
modalities, then accept (keep the candidate subset and scores, increment
the counter) iff the acceptance criterion holds, else restore the popped
conformer at the end of the list and retain the old scores. -/
def optStep (m : XEISDModel) (flags : ModKey → Bool) (final_size : ℕ)
    (opt_type : OptType) (beta : ℝ) (p : Proposal) (st : OptState) : OptState :=
  let popped_structure := st.indices.getD p.pop_index 0
  let removed := st.indices.eraseIdx p.pop_index
  let new_scores := candidateScores m flags final_size st.scores popped_structure p.new_index
  let old_total_score := totalScore st.scores
  let new_total_score := totalScore new_scores
  let to_accept : Prop :=
    match opt_type with
    | .max => old_total_score < new_total_score
    | .mc => monte_carlo beta old_total_score new_total_score p.mc_u
  if to_accept then
    { indices := removed ++ [p.new_index], scores := new_scores, accepted := st.accepted + 1 }
  else
    { indices := removed ++ [popped_structure], scores := st.scores, accepted := st.accepted }

/-- The exchange loop run over an explicit list of proposals (the `iters`
random draws). -/
def runIters (m : XEISDModel) (flags : ModKey → Bool) (final_size : ℕ)
    (opt_type : OptType) (beta : ℝ) : List Proposal → OptState → OptState
  | [], st => st
  | p :: ps, st => runIters m flags final_size opt_type beta ps (optStep m flags final_size opt_type beta p st)

/-- The post-loop pass (optimizer.py lines 253-278): for every modality
whose flag is off, overwrite slots `[0]` and `[1]` (rmse and score) with a
fresh full evaluation on the final subset.  The source's chain handles
`pre`, `jc`, `cs`, `fret`, `rh`, `rdc` and `saxs` — it has no `noe` branch,
so an inactive `noe` keeps its stale slots. -/
def posthocScores (m : XEISDModel) (flags : ModKey → Bool) (final_size : ℕ)
    (idxs : List ℕ) (old : ModKey → RunScore) : ModKey → RunScore :=
  fun k =>
    if flags k then old k
    else
      match k with
      | .pre =>
          let r := pre_optimization_ensemble m.preE m.preB final_size (some idxs) false zv 0 0
          { old k with rmse := r.rmse, score := r.score }
      | .jc =>
          let r := jc_optimization_ensemble m.jcE m.jcB final_size (some idxs) ⟨zv, zv⟩ 0 0
          { old k with rmse := r.rmse, score := r.score }
      | .cs =>
          let r := cs_optimization_ensemble m.csE m.csB final_size (some idxs) zv 0 0
          { old k with rmse := r.rmse, score := r.score }
      | .fret =>
          let r := fret_optimization_ensemble m.fretE m.fretB final_size (some idxs) zv 0 0
          { old k with rmse := r.rmse, score := r.score }
      | .rh =>
          let r := rh_optimization_ensemble m.rhE m.rhB final_size (some idxs) zv 0 0
          { old k with rmse := r.rmse, score := r.score }
      | .rdc =>
          let r := rdc_optimization_ensemble m.rdcE m.rdcB final_size (some idxs) zv 0 0
          { old k with rmse := r.rmse, score := r.score }
      | .saxs =>
          let r := saxs_optimization_ensemble m.saxsE m.saxsB (some idxs) final_size m.resnum zv 0 0
          { old k with rmse := r.rmse, score := r.score }
      | .noe => old k

/-- The record `optimize` returns on success: the epoch id, the accept
counter, the final per-modality `[rmse, score]` state (flattened into the
`s` result row by the source), the final subset and — used only when
J-coupling is among the flags — its final predicted couplings. -/
structure OptOutcome where
  epoch : ℕ
  accepted : ℕ
  finalScores : ModKey → RunScore
  indices : List ℕ
  best_jcoups : ℕ → ℝ

/-- The oracle inputs standing for the seeded `np.random` draws of one
epoch: the initial sample and the per-iteration proposals. -/
structure OptInputs where
  init_indices : List ℕ
  proposals : List Proposal

/-- `XEISD.optimize` (optimizer.py lines 116-287).  The
`assert final_size < self.pool_size` guard (line 167) runs before the
initial sampling, the loop and the post-hoc pass, and its failure is the
`Except.error` case: nothing else of the epoch is produced. -/
def optimize (m : XEISDModel) (eps_rnd : ℕ × ℕ) (final_size : ℕ)
    (opt_type : OptType) (mode : ModeSel) (beta : ℝ) (inp : OptInputs) :
    Except String OptOutcome :=
  if final_size < m.pool_size then
    let flags := modes mode
    let st0 : OptState :=
      { indices := inp.init_indices
        scores := fun k => fullRun m final_size inp.init_indices k
        accepted := 0 }
    let stN := runIters m flags final_size opt_type beta inp.proposals st0
    let finalScores := posthocScores m flags final_size stN.indices stN.scores
    .ok
      { epoch := eps_rnd.1
        accepted := stN.accepted
        finalScores := finalScores
        indices := stN.indices
        best_jcoups := (finalScores .jc).mean }
  else
    .error "assert final_size < pool_size"

/-! Lemmas about the shared incremental-averaging rule: removing the `k`-th
member of the subset and appending a replacement shifts the subset mean by
`(removedRow - addedRow) / size`, exactly. -/

/-- Sum of a mapped list after erasing index `k`. -/
theorem sum_map_eraseIdx (f : ℕ → ℝ) (S : List ℕ) (k : ℕ) (hk : k < S.length) :
    ((S.eraseIdx k).map f).sum = (S.map f).sum - f (S.getD k 0) := by
  induction S generalizing k with
  | nil => simp at hk
  | cons b S ih =>
    cases k with
    | zero => simp [List.eraseIdx]
    | succ k =>
      have hk' : k < S.length := by simpa using hk
      simp only [List.eraseIdx_cons_succ, List.map_cons, List.sum_cons,
        List.getD_cons_succ, ih k hk']
      ring

/-- Erase-then-append keeps the subset size. -/
theorem length_eraseIdx_append (S : List ℕ) (k a : ℕ) (hk : k < S.length) :
    (S.eraseIdx k ++ [a]).length = S.length := by
  simp [List.length_eraseIdx, hk]
  omega

/-- The shared update rule `newMean = priorMean - (removedRow - addedRow)/n`
recomputes the arithmetic subset mean of `S.eraseIdx k ++ [a]` exactly. -/
theorem subsetMean_swap (row : ℕ → ℕ → ℝ) (S : List ℕ) (k a : ℕ)
    (hk : k < S.length) (j : ℕ) :
    subsetMean row S j - (row (S.getD k 0) j - row a j) / (S.length : ℝ) =
      subsetMean row (S.eraseIdx k ++ [a]) j := by
  unfold subsetMean
  rw [length_eraseIdx_append S k a hk, List.map_append, List.sum_append,
    sum_map_eraseIdx _ S k hk]
  simp only [List.map_cons, List.map_nil, List.sum_cons, List.sum_nil]
  ring

/-- A subset mean of channelwise-nonnegative rows is nonnegative. -/
theorem subsetMean_nonneg (row : ℕ → ℕ → ℝ) (S : List ℕ) (j : ℕ)
    (h : ∀ i ∈ S, 0 ≤ row i j) : 0 ≤ subsetMean row S j := by
  unfold subsetMean
  apply div_nonneg
  · apply List.sum_nonneg
    intro x hx
    simp only [List.mem_map] at hx
    obtain ⟨i, hi, rfl⟩ := hx
    exact h i hi
  · positivity

/-- The inverse-sixth-power form of the update rule: recovering the
transformed mean from the prior `avg_distance` via `** -6`, applying the
`(mean*n - (popped - added))/n` update, equals the fresh transformed mean of
the swapped subset. -/
theorem inv6_swap (row : ℕ → ℕ → ℝ) (S : List ℕ) (k a : ℕ)
    (hk : k < S.length) (j : ℕ) (hpos : ∀ i ∈ S, 0 ≤ row i j) :
    ((subsetMean (fun i j' => row i j' ^ (-6 : ℝ)) S j ^ (-(1 : ℝ) / 6)) ^ (-6 : ℝ) *
          (S.length : ℝ) -
        (row (S.getD k 0) j ^ (-6 : ℝ) - row a j ^ (-6 : ℝ))) / (S.length : ℝ) =
      subsetMean (fun i j' => row i j' ^ (-6 : ℝ)) (S.eraseIdx k ++ [a]) j := by
  have hm : 0 ≤ subsetMean (fun i j' => row i j' ^ (-6 : ℝ)) S j :=
    subsetMean_nonneg _ S j fun i hi => Real.rpow_nonneg (hpos i hi) _
  rw [← Real.rpow_mul hm, show (-(1 : ℝ) / 6 * -6 : ℝ) = 1 by norm_num, Real.rpow_one,
    ← subsetMean_swap (fun i j' => row i j' ^ (-6 : ℝ)) S k a hk j]
  have hn : (S.length : ℝ) ≠ 0 := by
    have h0 : 0 < S.length := lt_of_le_of_lt (Nat.zero_le k) hk
    exact_mod_cast h0.ne'
  field_simp

/-- C1: for every modality's averaging rule, the incremental branch
(`indices = None`), fed the prior mean produced by the full-evaluation
branch on the active subset `S` and told that slot `k` is removed and
index `a` appended, returns exactly the mean that the full-evaluation
branch recomputes on `S.eraseIdx k ++ [a]` — for the arithmetic rule
(SAXS, CS, FRET, ratio-mode PRE, RDC, and channel 0 for Rh), for both
J-coupling feature moments, and for the inverse-sixth-power rule of NOE
and distance-mode PRE (whose rows are nonnegative distances). -/
theorem incremental_update_matches_fresh_mean (E : XEISDModel) (S : List ℕ)
    (k a es : ℕ) (hes : es = S.length) (hk : k < S.length)
    (hnoe : ∀ i ∈ S, ∀ j, 0 ≤ E.noeB.row i j)
    (hpre : ∀ i ∈ S, ∀ j, 0 ≤ E.preB.row i j) :
    ((saxs_optimization_ensemble E.saxsE E.saxsB none es E.resnum
        (saxs_optimization_ensemble E.saxsE E.saxsB (some S) es E.resnum zv 0 0).mean
        (S.getD k 0) a).mean =
      (saxs_optimization_ensemble E.saxsE E.saxsB (some (S.eraseIdx k ++ [a])) es
        E.resnum zv 0 0).mean) ∧
    ((cs_optimization_ensemble E.csE E.csB es none
        (cs_optimization_ensemble E.csE E.csB es (some S) zv 0 0).mean
        (S.getD k 0) a).mean =
      (cs_optimization_ensemble E.csE E.csB es (some (S.eraseIdx k ++ [a])) zv 0 0).mean) ∧
    ((fret_optimization_ensemble E.fretE E.fretB es none
        (fret_optimization_ensemble E.fretE E.fretB es (some S) zv 0 0).mean
        (S.getD k 0) a).mean =
      (fret_optimization_ensemble E.fretE E.fretB es (some (S.eraseIdx k ++ [a])) zv 0 0).mean) ∧
    ((jc_optimization_ensemble E.jcE E.jcB es none
        ⟨(jc_optimization_ensemble E.jcE E.jcB es (some S) ⟨zv, zv⟩ 0 0).alpha1,
          (jc_optimization_ensemble E.jcE E.jcB es (some S) ⟨zv, zv⟩ 0 0).alpha2⟩
        (S.getD k 0) a).alpha1 =
      (jc_optimization_ensemble E.jcE E.jcB es (some (S.eraseIdx k ++ [a])) ⟨zv, zv⟩ 0 0).alpha1) ∧
    ((jc_optimization_ensemble E.jcE E.jcB es none
        ⟨(jc_optimization_ensemble E.jcE E.jcB es (some S) ⟨zv, zv⟩ 0 0).alpha1,
          (jc_optimization_ensemble E.jcE E.jcB es (some S) ⟨zv, zv⟩ 0 0).alpha2⟩
        (S.getD k 0) a).alpha2 =
      (jc_optimization_ensemble E.jcE E.jcB es (some (S.eraseIdx k ++ [a])) ⟨zv, zv⟩ 0 0).alpha2) ∧
    ((noe_optimization_ensemble E.noeE E.noeB es none
        (noe_optimization_ensemble E.noeE E.noeB es (some S) zv 0 0).mean
        (S.getD k 0) a).mean =
      (noe_optimization_ensemble E.noeE E.noeB es (some (S.eraseIdx k ++ [a])) zv 0 0).mean) ∧
    ((pre_optimization_ensemble E.preE E.preB es none true
        (pre_optimization_ensemble E.preE E.preB es (some S) true zv 0 0).mean
        (S.getD k 0) a).mean =
      (pre_optimization_ensemble E.preE E.preB es (some (S.eraseIdx k ++ [a])) true zv 0 0).mean) ∧
    ((pre_optimization_ensemble E.preE E.preB es none false
        (pre_optimization_ensemble E.preE E.preB es (some S) false zv 0 0).mean
        (S.getD k 0) a).mean =
      (pre_optimization_ensemble E.preE E.preB es (some (S.eraseIdx k ++ [a])) false zv 0 0).mean) ∧
    ((rdc_optimization_ensemble E.rdcE E.rdcB es none
        (rdc_optimization_ensemble E.rdcE E.rdcB es (some S) zv 0 0).mean
        (S.getD k 0) a).mean =
      (rdc_optimization_ensemble E.rdcE E.rdcB es (some (S.eraseIdx k ++ [a])) zv 0 0).mean) ∧
    ((rh_optimization_ensemble E.rhE E.rhB es none
        (fun _ => (rh_optimization_ensemble E.rhE E.rhB es (some S) zv 0 0).mean0)
        (S.getD k 0) a).mean0 =
      (rh_optimization_ensemble E.rhE E.rhB es (some (S.eraseIdx k ++ [a])) zv 0 0).mean0) := by
  subst hes
  refine ⟨?_, ?_, ?_, ?_, ?_, ?_, ?_, ?_, ?_, ?_⟩
  · exact funext fun j => subsetMean_swap E.saxsB.row S k a hk j
  · exact funext fun j => subsetMean_swap E.csB.row S k a hk j
  · exact funext fun j => subsetMean_swap E.fretB.row S k a hk j
  · exact funext fun j => subsetMean_swap E.jcB.row S k a hk j
  · exact funext fun j => subsetMean_swap (fun i j' => E.jcB.row i j' ^ 2) S k a hk j
  · exact funext fun j =>
      congrArg (fun t : ℝ => t ^ (-(1 : ℝ) / 6))
        (inv6_swap E.noeB.row S k a hk j fun i hi => hnoe i hi j)
  · exact funext fun j => subsetMean_swap E.preB.row S k a hk j
  · exact funext fun j =>
      congrArg (fun t : ℝ => t ^ (-(1 : ℝ) / 6))
        (inv6_swap E.preB.row S k a hk j fun i hi => hpre i hi j)
  · exact funext fun j => subsetMean_swap E.rdcB.row S k a hk j
  · exact subsetMean_swap E.rhB.row S k a hk 0

/-! Small concrete stacks used to instantiate theorems with hypotheses. -/

/-- One-channel SAXS stack with unit values and errors and `index = 1/2`. -/
def trivSaxsE : SaxsExp :=
  { M := 1, vals := fun _ => 1, errs := fun _ => 1, idx := fun _ => 1 / 2 }

/-- One-channel chemical-shift stack. -/
def trivCsE : CsExp :=
  { M := 1, vals := fun _ => 1, errs := fun _ => 1, atm := fun _ => "H" }

/-- One-channel value/error stack. -/
def trivVE : ValErrExp :=
  { M := 1, vals := fun _ => 1, errs := fun _ => 1 }

/-- One-channel distance stack with unit columns and bounds present. -/
def trivBdsE : BoundsExp :=
  { M := 1, dist := fun _ => 1, upper := fun _ => 1, lower := fun _ => 1
    errs := fun _ => 1, hasBounds := true }

/-- Back-calculated stack whose rows are identically 1, with unit sigma. -/
def trivB : BcScalar := { row := fun _ _ => 1, sigma := 1 }

/-- Back-calculated chemical-shift stack with unit rows and sigma map. -/
def trivBcCs : BcCs := { row := fun _ _ => 1, sigmaOf := fun _ => 1 }

/-- Back-calculated J-coupling stack with unit rows, priors and sigmas. -/
def trivBcJc : BcJc := { row := fun _ _ => 1, mus := fun _ => 1, sigs := fun _ => 1 }

/-- A concrete engine over a pool of 5 identical conformers. -/
def trivModel : XEISDModel :=
  { saxsE := trivSaxsE, csE := trivCsE, fretE := trivVE, jcE := trivVE
    noeE := trivBdsE, preE := trivBdsE, rdcE := trivVE, rhE := trivVE
    saxsB := trivB, csB := trivBcCs, fretB := trivB, jcB := trivBcJc
    noeB := trivB, preB := trivB, rdcB := trivB, rhB := trivB
    resnum := 1, pool_size := 5 }

/-- A concrete optimizer state: subset `[0, 1]`, zero scores, no accepts. -/
def trivState : OptState :=
  { indices := [0, 1], scores := fun _ => zeroScores, accepted := 0 }

/-- A concrete exchange proposal: pop slot 0, bring in pool index 2. -/
def trivProp : Proposal := { pop_index := 0, new_index := 2, mc_u := 0 }

/-- Witness for the incremental-averaging theorem: swap slot 0 of the subset
`[0, 1]` for pool index 2 in the concrete engine (SAXS conjunct shown). -/
theorem incremental_update_matches_fresh_mean_witness :
    ((2 : ℕ) = ([0, 1] : List ℕ).length ∧ (0 : ℕ) < ([0, 1] : List ℕ).length ∧
      (∀ i ∈ ([0, 1] : List ℕ), ∀ j, (0 : ℝ) ≤ trivModel.noeB.row i j) ∧
      (∀ i ∈ ([0, 1] : List ℕ), ∀ j, (0 : ℝ) ≤ trivModel.preB.row i j)) ∧
    (saxs_optimization_ensemble trivModel.saxsE trivModel.saxsB none 2 trivModel.resnum
        (saxs_optimization_ensemble trivModel.saxsE trivModel.saxsB (some [0, 1]) 2
          trivModel.resnum zv 0 0).mean
        (([0, 1] : List ℕ).getD 0 0) 2).mean =
      (saxs_optimization_ensemble trivModel.saxsE trivModel.saxsB
        (some (([0, 1] : List ℕ).eraseIdx 0 ++ [2])) 2 trivModel.resnum zv 0 0).mean :=
  ⟨⟨rfl, by decide, fun i _ j => by norm_num [trivModel, trivB],
      fun i _ j => by norm_num [trivModel, trivB]⟩,
    (incremental_update_matches_fresh_mean trivModel [0, 1] 0 2 2 rfl (by decide)
      (fun i _ j => by norm_num [trivModel, trivB])
      (fun i _ j => by norm_num [trivModel, trivB])).1⟩

/-- C2: under `opt_type = max` the retained total score never decreases:
one exchange step can only keep or raise `totalScore` of the retained
`old_scores`, any run of iterations is monotone, and when the candidate
total does not strictly exceed the prior total the proposal is rejected —
scores dictionary and accept counter are left unchanged. -/
theorem max_retained_total_score_monotone (m : XEISDModel) (flags : ModKey → Bool)
    (final_size : ℕ) (beta : ℝ) (p : Proposal) (ps : List Proposal) (st : OptState) :
    totalScore st.scores ≤
        totalScore (optStep m flags final_size OptType.max beta p st).scores ∧
    totalScore st.scores ≤
        totalScore (runIters m flags final_size OptType.max beta ps st).scores ∧
    (¬ totalScore st.scores <
        totalScore (candidateScores m flags final_size st.scores
          (st.indices.getD p.pop_index 0) p.new_index) →
      (optStep m flags final_size OptType.max beta p st).scores = st.scores ∧
      (optStep m flags final_size OptType.max beta p st).accepted = st.accepted) := by
  have hstep : ∀ (q : Proposal) (st' : OptState),
      totalScore st'.scores ≤
        totalScore (optStep m flags final_size OptType.max beta q st').scores := by
    intro q st'
    simp only [optStep, apply_ite OptState.scores]
    split
    · rename_i h
      exact le_of_lt h
    · exact le_rfl
  refine ⟨hstep p st, ?_, ?_⟩
  · induction ps generalizing st with
    | nil => exact le_rfl
    | cons q ps ih => exact le_trans (hstep q st) (ih _)
  · intro h
    constructor
    · simp only [optStep, apply_ite OptState.scores]
      rw [if_neg h]
    · simp only [optStep, apply_ite OptState.accepted]
      rw [if_neg h]

/-- Witness for the monotonicity theorem: with no active modality both
totals are zero, the tie is rejected, and the retained state is unchanged. -/
theorem max_retained_total_score_monotone_witness :
    (¬ totalScore trivState.scores <
        totalScore (candidateScores trivModel (fun _ => false) 2 trivState.scores
          (trivState.indices.getD trivProp.pop_index 0) trivProp.new_index)) ∧
    (optStep trivModel (fun _ => false) 2 OptType.max 0 trivProp trivState).scores =
        trivState.scores ∧
    (optStep trivModel (fun _ => false) 2 OptType.max 0 trivProp trivState).accepted =
        trivState.accepted :=
  have h : ¬ totalScore trivState.scores <
      totalScore (candidateScores trivModel (fun _ => false) 2 trivState.scores
        (trivState.indices.getD trivProp.pop_index 0) trivProp.new_index) := by
    simp [totalScore, candidateScores, trivState, zeroScores, ModKey.allKeys]
  ⟨h, (max_retained_total_score_monotone trivModel (fun _ => false) 2 0 trivProp []
    trivState).2.2 h⟩

/-! C3: subset invariants of the exchange loop. -/

/-- The subset invariant: exactly `final_size` indices, pairwise distinct,
all drawn from `[0, pool_size)`. -/
def SubsetInv (final_size pool_size : ℕ) (ind : List ℕ) : Prop :=
  ind.length = final_size ∧ ind.Nodup ∧ ∀ i ∈ ind, i < pool_size

/-- What the proposal draws of one iteration guarantee: the popped slot is
in range (`randint(0, final_size)` on a subset of that size), and the
rejection-sampling loop exits only with a pool index that is neither the
popped conformer nor one still in the subset. -/
def ValidProposal (pool_size : ℕ) (p : Proposal) (ind : List ℕ) : Prop :=
  p.pop_index < ind.length ∧ p.new_index < pool_size ∧
    p.new_index ≠ ind.getD p.pop_index 0 ∧ p.new_index ∉ ind.eraseIdx p.pop_index

/-- A proposal list is stepwise valid from a state when each proposal is
valid for the state reached by the preceding steps. -/
def ValidRun (m : XEISDModel) (flags : ModKey → Bool) (final_size : ℕ)
    (opt_type : OptType) (beta : ℝ) (pool_size : ℕ) :
    List Proposal → OptState → Prop
  | [], _ => True
  | p :: ps, st => ValidProposal pool_size p st.indices ∧
      ValidRun m flags final_size opt_type beta pool_size ps
        (optStep m flags final_size opt_type beta p st)

/-- One exchange step preserves the subset invariant: both the accepted
subset `eraseIdx ++ [new]` and the restored subset `eraseIdx ++ [popped]`
keep the size, distinctness and range. -/
theorem optStep_preserves_inv (m : XEISDModel) (flags : ModKey → Bool)
    (final_size : ℕ) (opt_type : OptType) (beta : ℝ) (pool_size : ℕ)
    (p : Proposal) (st : OptState)
    (hinv : SubsetInv final_size pool_size st.indices)
    (hp : ValidProposal pool_size p st.indices) :
    SubsetInv final_size pool_size
      (optStep m flags final_size opt_type beta p st).indices := by
  obtain ⟨hlen, hnd, hrange⟩ := hinv
  obtain ⟨hpop, hnew, hne, hnotin⟩ := hp
  have hsub : List.Sublist (st.indices.eraseIdx p.pop_index) st.indices :=
    List.eraseIdx_sublist _ _
  have hndE : (st.indices.eraseIdx p.pop_index).Nodup := hnd.sublist hsub
  have hgd : st.indices.getD p.pop_index 0 ∈ st.indices := by
    rw [List.getD_eq_getElem st.indices 0 hpop]
    exact List.getElem_mem hpop
  have hout : st.indices.getD p.pop_index 0 ∉ st.indices.eraseIdx p.pop_index := by
    intro hmem
    rw [List.getD_eq_getElem st.indices 0 hpop] at hmem
    rw [List.mem_eraseIdx_iff_getElem] at hmem
    obtain ⟨i, hi, hik, hgt⟩ := hmem
    exact hik (hnd.getElem_inj_iff.mp hgt)
  have hboth : ∀ x : ℕ, x < pool_size → x ∉ st.indices.eraseIdx p.pop_index →
      SubsetInv final_size pool_size (st.indices.eraseIdx p.pop_index ++ [x]) := by
    intro x hx hxout
    refine ⟨?_, ?_, ?_⟩
    · rw [length_eraseIdx_append st.indices p.pop_index x hpop]
      exact hlen
    · simp only [List.nodup_append, List.nodup_cons, List.nodup_nil, and_true,
        List.not_mem_nil, not_false_iff, List.disjoint_singleton]
      exact ⟨hndE, by simpa using hxout⟩
    · intro i hi
      rcases List.mem_append.mp hi with hiL | hiR
      · exact hrange i (hsub.subset hiL)
      · simp only [List.mem_singleton] at hiR
        exact hiR ▸ hx
  simp only [optStep, apply_ite OptState.indices]
  split
  · exact hboth p.new_index hnew hnotin
  · exact hboth (st.indices.getD p.pop_index 0)
      (hrange _ hgd) hout

/-- C3: the subset invariant holds after the initial sampling (the
hypothesis, which `np.random.choice(pool, final_size, replace=False)`
establishes) and after every completed iteration of any stepwise-valid
proposal sequence, whether each move was accepted or rejected. -/
theorem optimize_subset_invariant (m : XEISDModel) (flags : ModKey → Bool)
    (final_size : ℕ) (opt_type : OptType) (beta : ℝ) (pool_size : ℕ)
    (ps : List Proposal) (st : OptState)
    (hinv : SubsetInv final_size pool_size st.indices)
    (hrun : ValidRun m flags final_size opt_type beta pool_size ps st) :
    SubsetInv final_size pool_size
      (runIters m flags final_size opt_type beta ps st).indices := by
  induction ps generalizing st with
  | nil => exact hinv
  | cons p ps ih =>
    obtain ⟨hp, hrun'⟩ := hrun
    exact ih _ (optStep_preserves_inv m flags final_size opt_type beta pool_size p st hinv hp)
      hrun'

/-- Witness for the subset-invariant theorem: subset `[0, 1]` of a pool of
3, one proposal exchanging slot 0 for pool index 2. -/
theorem optimize_subset_invariant_witness :
    (SubsetInv 2 3 trivState.indices ∧
      ValidRun trivModel (fun _ => false) 2 OptType.max 0 3 [trivProp] trivState) ∧
    SubsetInv 2 3
      (runIters trivModel (fun _ => false) 2 OptType.max 0 [trivProp] trivState).indices :=
  have h1 : SubsetInv 2 3 trivState.indices := ⟨rfl, by decide, by decide⟩
  have h2 : ValidRun trivModel (fun _ => false) 2 OptType.max 0 3 [trivProp] trivState :=
    ⟨⟨by decide, by decide, by decide, by decide⟩, trivial⟩
  ⟨⟨h1, h2⟩, optimize_subset_invariant trivModel (fun _ => false) 2 OptType.max 0 3
    [trivProp] trivState h1 h2⟩

/-- C4: `calc_opt_params` returns `ratio (exp - mean) / (1 + ratio)` with
`ratio = sigma_bc² / sigma_exp²` per channel, and returns zero on every
channel as soon as any experimental sigma is exactly zero; `normal_loglike`
yields the explicit `-inf` sentinel (never NaN) when the supplied sigma is
zero, and for positive sigma it floors the density at `min_val` before the
logarithm, so the channel value is finite and at least `log min_val`. -/
theorem opt_params_and_loglike_guards (M : ℕ) (beta exp' exp_sig sig : ℕ → ℝ)
    (x mu sg gamma : ℝ) :
    ((∃ j < M, exp_sig j = 0) → calc_opt_params M beta exp' exp_sig sig = fun _ => 0) ∧
    ((¬ ∃ j < M, exp_sig j = 0) → ∀ j,
      calc_opt_params M beta exp' exp_sig sig j =
        ((sig j ^ 2 / exp_sig j ^ 2) * (exp' j - beta j)) /
          (1 + sig j ^ 2 / exp_sig j ^ 2)) ∧
    normal_loglike x mu 0 gamma = (⊥ : EReal) ∧
    (0 < sg → ((Real.log nl_min_val : ℝ) : EReal) ≤ normal_loglike x mu sg gamma ∧
      normal_loglike x mu sg gamma ≠ (⊥ : EReal)) := by
  refine ⟨?_, ?_, ?_, ?_⟩
  · intro h
    simp [calc_opt_params, h]
  · intro h j
    simp [calc_opt_params, h]
  · simp [normal_loglike]
  · intro hs
    constructor
    · simp only [normal_loglike, if_pos hs, EReal.coe_le_coe_iff]
      exact Real.log_le_log (by norm_num [nl_min_val]) (le_max_right _ _)
    · simp [normal_loglike, hs]

/-- Witness for the nuisance-parameter and log-likelihood guards: a zero
experimental sigma zeroes the parameters, and unit sigma keeps the channel
log-likelihood above `log min_val`. -/
theorem opt_params_and_loglike_guards_witness :
    ((∃ j < 1, (fun _ : ℕ => (0 : ℝ)) j = 0) ∧
      calc_opt_params 1 zv zv (fun _ => 0) zv = fun _ => 0) ∧
    ((0 : ℝ) < 1 ∧
      ((Real.log nl_min_val : ℝ) : EReal) ≤ normal_loglike 0 0 1 1) :=
  ⟨⟨⟨0, by norm_num⟩,
      (opt_params_and_loglike_guards 1 zv zv (fun _ => 0) zv 0 0 1 1).1 ⟨0, by norm_num⟩⟩,
    ⟨by norm_num,
      ((opt_params_and_loglike_guards 1 zv zv (fun _ => 0) zv 0 0 1 1).2.2.2
        (by norm_num)).1⟩⟩

/-- C6 (code bug): the post-loop pass of `optimize` freshly evaluates every
inactive modality on the final subset except NOE — the dispatch chain at
optimizer.py lines 256-276 has no `noe` branch, so an inactive NOE keeps
whatever stale running-score slots it had (the zeroed `new_scores` entry
after any accepted move), contradicting the documented post-hoc
re-evaluation. -/
theorem posthoc_leaves_inactive_noe_stale (m : XEISDModel) (flags : ModKey → Bool)
    (final_size : ℕ) (idxs : List ℕ) (old : ModKey → RunScore)
    (h : flags ModKey.noe = false) :
    posthocScores m flags final_size idxs old ModKey.noe = old ModKey.noe := by
  simp [posthocScores, h]

/-- Witness for the stale-NOE theorem: with no active modality, the
post-hoc pass returns the NOE slot untouched. -/
theorem posthoc_leaves_inactive_noe_stale_witness :
    ((fun _ : ModKey => false) ModKey.noe = false) ∧
    posthocScores trivModel (fun _ => false) 2 [0, 1] (fun _ => zeroScores) ModKey.noe =
      (fun _ : ModKey => zeroScores) ModKey.noe :=
  ⟨rfl, posthoc_leaves_inactive_noe_stale trivModel (fun _ => false) 2 [0, 1]
    (fun _ => zeroScores) rfl⟩

/-- C8: `optimize` with `final_size ≥ pool_size` fails its assertion before
the initial sampling, the exchange loop and the post-hoc pass — the error
is returned with no part of the epoch state produced — and with
`final_size < pool_size` no such error is raised (the run returns a
result). -/
theorem optimize_final_size_guard (m : XEISDModel) (eps_rnd : ℕ × ℕ)
    (final_size : ℕ) (opt_type : OptType) (mode : ModeSel) (beta : ℝ)
    (inp : OptInputs) :
    (m.pool_size ≤ final_size →
      optimize m eps_rnd final_size opt_type mode beta inp =
        Except.error "assert final_size < pool_size") ∧
    (final_size < m.pool_size →
      ∃ out, optimize m eps_rnd final_size opt_type mode beta inp = Except.ok out) := by
  constructor
  · intro h
    simp only [optimize]
    rw [if_neg (by omega)]
  · intro h
    simp only [optimize]
    rw [if_pos h]
    exact ⟨_, rfl⟩

/-- Witness for the size guard: `final_size = pool_size = 5` errors out,
`final_size = 2 < 5` succeeds. -/
theorem optimize_final_size_guard_witness :
    (trivModel.pool_size ≤ 5 ∧
      optimize trivModel (0, 0) 5 OptType.max ModeSel.all 0 ⟨[], []⟩ =
        Except.error "assert final_size < pool_size") ∧
    ((2 : ℕ) < trivModel.pool_size ∧
      ∃ out, optimize trivModel (0, 0) 2 OptType.max ModeSel.all 0 ⟨[0, 1], []⟩ =
        Except.ok out) :=
  ⟨⟨by decide,
      (optimize_final_size_guard trivModel (0, 0) 5 OptType.max ModeSel.all 0 ⟨[], []⟩).1
        (by decide)⟩,
    ⟨by decide,
      (optimize_final_size_guard trivModel (0, 0) 2 OptType.max ModeSel.all 0
        ⟨[0, 1], []⟩).2 (by decide)⟩⟩

/-- C7 counterexample: for J-coupling, `calc_scores` returns the kernel's
whole result list — optimizer.py line 80 applies no `[:3]` — so the payload
has four entries (the feature-moment pair included), not three. -/
theorem calc_scores_jc_payload_not_three :
    payloadLength (calc_scores trivModel jc_name 2 (some [0, 1]) []) ≠ 3 := by
  have h : payloadLength (calc_scores trivModel jc_name 2 (some [0, 1]) []) = 4 := rfl
  rw [h]
  decide

/-- C7 amended: `calc_scores` returns `(name, [rmse, score, meanObservable])`
— exactly three entries, diagnostics dropped — for every modality except
J-coupling, whose payload keeps a fourth entry (the pair of feature-moment
vectors that `optimize` reads back for the incremental update). -/
theorem calc_scores_payload_arity (m : XEISDModel) (es : ℕ) (l rand : List ℕ) :
    payloadLength (calc_scores m saxs_name es (some l) rand) = 3 ∧
    payloadLength (calc_scores m cs_name es (some l) rand) = 3 ∧
    payloadLength (calc_scores m fret_name es (some l) rand) = 3 ∧
    payloadLength (calc_scores m noe_name es (some l) rand) = 3 ∧
    payloadLength (calc_scores m pre_name es (some l) rand) = 3 ∧
    payloadLength (calc_scores m rdc_name es (some l) rand) = 3 ∧
    payloadLength (calc_scores m rh_name es (some l) rand) = 3 ∧
    payloadLength (calc_scores m jc_name es (some l) rand) = 4 :=
  ⟨rfl, rfl, rfl, rfl, rfl, rfl, rfl, rfl⟩

/-- C9 counterexample: requesting the unknown modality name `"xx"` raises
nothing — `calc_scores` falls through every dispatch arm and returns the
bare Python `False` sentinel (optimizer.py line 113). -/
theorem calc_scores_unknown_returns_false :
    calc_scores trivModel "xx" 2 (some [0, 1]) [] = CalcScoresResult.boolFalse := rfl

/-- C9 amended: for any modality name outside the eight supported ones,
`calc_scores` returns the `False` sentinel — a non-error value the caller
must recognize — instead of raising a configuration error. -/
theorem calc_scores_unknown_amended (m : XEISDModel) (dtypes : String) (es : ℕ)
    (indices : Option (List ℕ)) (rand : List ℕ) (h : dtypes ∉ eisd_modules) :
    calc_scores m dtypes es indices rand = CalcScoresResult.boolFalse := by
  simp only [eisd_modules, List.mem_cons, List.not_mem_nil, or_false, not_or] at h
  obtain ⟨h1, h2, h3, h4, h5, h6, h7, h8⟩ := h
  simp only [calc_scores]
  rw [if_neg fun e => h4 e.symm, if_neg fun e => h1 e.symm, if_neg fun e => h2 e.symm,
    if_neg fun e => h3 e.symm, if_neg fun e => h5 e.symm, if_neg fun e => h6 e.symm,
    if_neg fun e => h7 e.symm, if_neg fun e => h8 e.symm]

/-- Witness for the unknown-modality sentinel: the name `"zz"` is not a
supported modality and gets the `False` sentinel. -/
theorem calc_scores_unknown_amended_witness :
    ("zz" ∉ eisd_modules) ∧
    calc_scores trivModel "zz" 3 none [0] = CalcScoresResult.boolFalse :=
  ⟨by decide, calc_scores_unknown_amended trivModel "zz" 3 none [0] (by decide)⟩

/-- C10: when `calc_scores` is given explicit indices, its result is a
function of the stacks and the indices alone — the `ens_size` argument is
ignored by every kernel's full-evaluation branch, so two calls differing
only in `ens_size` agree exactly. -/
theorem calc_scores_ignores_ens_size_with_indices (m : XEISDModel) (dtypes : String)
    (es1 es2 : ℕ) (l rand : List ℕ) :
    calc_scores m dtypes es1 (some l) rand = calc_scores m dtypes es2 (some l) rand := by
  simp only [calc_scores]
  repeat' split
  all_goals rfl

/-! C5: how the SAXS channel-count correction really enters the score. -/

/-- The one-element index range. -/
theorem range_one_eq : List.range 1 = [0] := rfl

/-- At `x = mu` the Gaussian density reduces to its prefactor, whatever
`gamma` is. -/
theorem nl_density_center (sg gamma : ℝ) :
    nl_density 0 0 sg gamma = 1 / Real.sqrt (2 * Real.pi * (sg ^ 2 + nl_eps)) := by
  simp [nl_density]

/-- Bounds for the unit-sigma prefactor: at least `1/3` and below `1`. -/
theorem unit_prefactor_bounds :
    1 / 3 ≤ 1 / Real.sqrt (2 * Real.pi * ((1 : ℝ) ^ 2 + nl_eps)) ∧
    1 / Real.sqrt (2 * Real.pi * ((1 : ℝ) ^ 2 + nl_eps)) < 1 := by
  have he : (0 : ℝ) < nl_eps := by norm_num [nl_eps]
  have he1 : nl_eps ≤ 1 / 100 := by norm_num [nl_eps]
  have hA : (1 : ℝ) < 2 * Real.pi * ((1 : ℝ) ^ 2 + nl_eps) := by
    nlinarith [Real.pi_gt_three]
  have hA9 : 2 * Real.pi * ((1 : ℝ) ^ 2 + nl_eps) ≤ 9 := by
    nlinarith [Real.pi_lt_d2]
  have hs1 : (1 : ℝ) < Real.sqrt (2 * Real.pi * ((1 : ℝ) ^ 2 + nl_eps)) := by
    have h1 : ((1 : ℝ)) ^ 2 < 2 * Real.pi * ((1 : ℝ) ^ 2 + nl_eps) := by nlinarith
    exact (Real.lt_sqrt (by norm_num)).mpr h1
  have h9 : Real.sqrt 9 = 3 := by
    rw [show (9 : ℝ) = 3 ^ 2 by norm_num]
    exact Real.sqrt_sq (by norm_num)
  have hs3 : Real.sqrt (2 * Real.pi * ((1 : ℝ) ^ 2 + nl_eps)) ≤ 3 :=
    le_trans (Real.sqrt_le_sqrt hA9) (le_of_eq h9)
  constructor
  · exact one_div_le_one_div_of_le (by linarith) hs3
  · rw [div_lt_one (by linarith)]
    exact hs1

/-- The unit-sigma center density clears the `min_val` floor for every
`gamma`. -/
theorem unit_center_density_ge (gamma : ℝ) : nl_min_val ≤ nl_density 0 0 1 gamma := by
  rw [nl_density_center]
  exact le_trans (by norm_num [nl_min_val]) unit_prefactor_bounds.1

/-- C5 counterexample: on a one-channel SAXS stack with a constant
experimental index (`qmax = qmin`, hence `gamma = 0`) and back-calculated
rows matching the data, the kernel's score is `2·log(prefactor) ≠ 0`, while
gamma times the generic two-term score (the same `calc_score` at its
default `gamma = 1`) is `0`: the SAXS score is not the generic score scaled
by the channel-count correction factor. -/
theorem saxs_score_not_gamma_scaled :
    (saxs_optimization_ensemble trivModel.saxsE trivModel.saxsB (some [0, 1]) 2
        trivModel.resnum zv 0 0).score ≠
      ((calc_gamma trivModel.saxsE.M trivModel.resnum
          (npMax trivModel.saxsE.M trivModel.saxsE.idx)
          (npMin trivModel.saxsE.M trivModel.saxsE.idx) : ℝ) : EReal) *
        esum trivModel.saxsE.M
          (calc_score (fun j => subsetMean trivModel.saxsB.row [0, 1] j)
            trivModel.saxsE.vals trivModel.saxsE.errs (fun _ => trivModel.saxsB.sigma)
            (calc_opt_params trivModel.saxsE.M
              (fun j => subsetMean trivModel.saxsB.row [0, 1] j)
              trivModel.saxsE.vals trivModel.saxsE.errs
              (fun _ => trivModel.saxsB.sigma)) 1) := by
  have hgam : calc_gamma trivModel.saxsE.M trivModel.resnum
      (npMax trivModel.saxsE.M trivModel.saxsE.idx)
      (npMin trivModel.saxsE.M trivModel.saxsE.idx) = 0 := by
    simp [trivModel, trivSaxsE, calc_gamma, npMax, npMin, range_one_eq]
  have hrhs : ((calc_gamma trivModel.saxsE.M trivModel.resnum
      (npMax trivModel.saxsE.M trivModel.saxsE.idx)
      (npMin trivModel.saxsE.M trivModel.saxsE.idx) : ℝ) : EReal) *
        esum trivModel.saxsE.M
          (calc_score (fun j => subsetMean trivModel.saxsB.row [0, 1] j)
            trivModel.saxsE.vals trivModel.saxsE.errs (fun _ => trivModel.saxsB.sigma)
            (calc_opt_params trivModel.saxsE.M
              (fun j => subsetMean trivModel.saxsB.row [0, 1] j)
              trivModel.saxsE.vals trivModel.saxsE.errs
              (fun _ => trivModel.saxsB.sigma)) 1) = 0 := by
    rw [hgam]
    simp
  have hbc : ∀ j, subsetMean (fun _ _ => (1 : ℝ)) [0, 1] j = 1 := by
    intro j
    simp [subsetMean]
  have hopt : calc_opt_params 1 (fun j => subsetMean (fun _ _ => (1 : ℝ)) [0, 1] j)
      (fun _ => 1) (fun _ => 1) (fun _ => 1) = fun _ => 0 := by
    have hno : ¬ ∃ j < 1, (fun _ : ℕ => (1 : ℝ)) j = 0 := by simp
    simp only [calc_opt_params, if_neg hno]
    funext j
    rw [hbc j]
    norm_num
  have hNL : normal_loglike 0 0 1 0 =
      ((Real.log (1 / Real.sqrt (2 * Real.pi * ((1 : ℝ) ^ 2 + nl_eps))) : ℝ) : EReal) := by
    simp only [normal_loglike, if_pos (by norm_num : (0 : ℝ) < 1)]
    rw [max_eq_left (unit_center_density_ge 0), nl_density_center]
  have hgam' : calc_gamma 1 1 (npMax 1 fun _ => (1 : ℝ) / 2) (npMin 1 fun _ => (1 : ℝ) / 2) =
      0 := by
    simp [calc_gamma, npMax, npMin, range_one_eq]
  have hlhs : (saxs_optimization_ensemble trivModel.saxsE trivModel.saxsB (some [0, 1]) 2
      trivModel.resnum zv 0 0).score =
      ((Real.log (1 / Real.sqrt (2 * Real.pi * ((1 : ℝ) ^ 2 + nl_eps))) +
        Real.log (1 / Real.sqrt (2 * Real.pi * ((1 : ℝ) ^ 2 + nl_eps))) : ℝ) : EReal) := by
    simp only [saxs_optimization_ensemble, trivModel, trivSaxsE, trivB]
    rw [hopt, hgam']
    simp only [esum, range_one_eq, List.map_cons, List.map_nil, List.sum_cons,
      List.sum_nil, add_zero, calc_score]
    rw [hbc 0, show ((1 : ℝ) - 0 - 1) = 0 by norm_num]
    rw [hNL, ← EReal.coe_add]
  rw [hlhs, hrhs]
  have hlog : Real.log (1 / Real.sqrt (2 * Real.pi * ((1 : ℝ) ^ 2 + nl_eps))) < 0 :=
    Real.log_neg (by linarith [unit_prefactor_bounds.1]) unit_prefactor_bounds.2
  rw [Ne, EReal.coe_eq_zero]
  linarith

/-- C5 amended: the SAXS kernel scores with `calc_score` at
`gamma = calc_gamma(M, nres, qmax, qmin)` (qmax/qmin from the experimental
index channel), and gamma enters `normal_loglike` only as a scale on the
squared-deviation exponent: away from the density floor,
`NL(x,mu,sig,g) = NL(x,mu,sig,1) - (g-1)·(x-mu)²/(2(sig²+eps))` — the
channel-count correction rescales each quadratic term, not the whole
two-term score. -/
theorem saxs_gamma_scales_exponent (ed : SaxsExp) (bd : BcScalar) (l : List ℕ)
    (es nres : ℕ) (ov : ℕ → ℝ) (p q : ℕ) (x mu sg : ℝ) (L n : ℕ) (qmax qmin : ℝ)
    (hs : 0 < sg)
    (hfl : nl_min_val ≤ nl_density x mu sg (calc_gamma L n qmax qmin))
    (hfl1 : nl_min_val ≤ nl_density x mu sg 1) :
    ((saxs_optimization_ensemble ed bd (some l) es nres ov p q).score =
      esum ed.M (calc_score (fun j => subsetMean bd.row l j) ed.vals ed.errs
        (fun _ => bd.sigma)
        (calc_opt_params ed.M (fun j => subsetMean bd.row l j) ed.vals ed.errs
          (fun _ => bd.sigma))
        (calc_gamma ed.M nres (npMax ed.M ed.idx) (npMin ed.M ed.idx)))) ∧
    normal_loglike x mu sg (calc_gamma L n qmax qmin) =
      normal_loglike x mu sg 1 -
        (((calc_gamma L n qmax qmin - 1) * ((x - mu) ^ 2 / (2 * (sg ^ 2 + nl_eps))) : ℝ) :
          EReal) := by
  constructor
  · rfl
  · have he : (0 : ℝ) < nl_eps := by norm_num [nl_eps]
    have hd : (0 : ℝ) < 2 * Real.pi * (sg ^ 2 + nl_eps) := by
      nlinarith [Real.pi_pos, sq_nonneg sg]
    have hpre : 1 / Real.sqrt (2 * Real.pi * (sg ^ 2 + nl_eps)) ≠ 0 :=
      one_div_ne_zero (Real.sqrt_pos.mpr hd).ne'
    simp only [normal_loglike, if_pos hs]
    rw [max_eq_left hfl, max_eq_left hfl1, ← EReal.coe_sub, EReal.coe_eq_coe_iff]
    unfold nl_density
    rw [Real.log_mul hpre (Real.exp_ne_zero _), Real.log_mul hpre (Real.exp_ne_zero _),
      Real.log_exp, Real.log_exp]
    ring

/-- Witness for the gamma-in-the-exponent identity at unit sigma, centered
channel, and `gamma = calc_gamma 1 1 (1/2) (1/2) = 0`. -/
theorem saxs_gamma_scales_exponent_witness :
    ((0 : ℝ) < 1 ∧ nl_min_val ≤ nl_density 0 0 1 (calc_gamma 1 1 (1 / 2) (1 / 2)) ∧
      nl_min_val ≤ nl_density 0 0 1 1) ∧
    normal_loglike 0 0 1 (calc_gamma 1 1 (1 / 2) (1 / 2)) =
      normal_loglike 0 0 1 1 -
        (((calc_gamma 1 1 (1 / 2) (1 / 2) - 1) *
          ((0 - 0 : ℝ) ^ 2 / (2 * ((1 : ℝ) ^ 2 + nl_eps))) : ℝ) : EReal) :=
  ⟨⟨by norm_num, unit_center_density_ge _, unit_center_density_ge 1⟩,
    (saxs_gamma_scales_exponent trivSaxsE trivB [0, 1] 2 1 zv 0 0 0 0 1 1 1 (1 / 2) (1 / 2)
      (by norm_num) (unit_center_density_ge _) (unit_center_density_ge 1)).2⟩

end

end Xeisd
